import Mathlib

/-!
Verification development for the financial-statement aggregation engine of the
financelib repository (src/statements.rs), as a shallow embedding in Lean 4.

Modelling conventions:
* Rust `f64` currency amounts are modelled as exact rationals (`ℚ`); the
  algebraic and threshold properties proved here are about the arithmetic the
  code expresses, not IEEE rounding.
* Rust `HashMap<K, f64>` statement maps are modelled as functions
  `K → Option ℚ` (`none` = key absent); `BTreeMap` stores of the `Accounts`
  struct are modelled as association lists (the BTreeMap invariant of unique
  keys is implicit in the per-entry definitions).
* `chrono::NaiveDate` is modelled as `Int` (a day number); adding
  `Duration::days n` is adding `n`, and date comparison is integer comparison.
* A Rust `panic!` (including `Index`/`unwrap` panics) is modelled by the
  function returning `none` (`Option`-valued result); the panic aborts before
  any observable mutation, so no partially-mutated map is modelled.
-/

set_option maxRecDepth 2000

namespace FinanceLib

/-- BsType - enum of all Balance Sheet line items (statements.rs). -/
inductive BsType
  | Cash
  | CurrentReceivables
  | CurrentLoans
  | CurrentAdvances
  | OtherCurrentAssets
  | CurrentInvestments
  | Inventories
  | RawMaterials
  | WorkInProgress
  | FinishedGoods
  | CurrentAssets
  | AccountReceivables
  | LongTermLoanAssets
  | LongTermAdvances
  | LongTermInvestments
  | OtherLongTermAssets
  | PlantPropertyEquipment
  | AccumulatedDepreciation
  | NetPlantPropertyEquipment
  | LeasingRentalAssets
  | AccumulatedAmortizationLease
  | NetLeaseRentalAssets
  | Goodwill
  | CapitalWip
  | OtherTangibleAssets
  | IntangibleAssets
  | IntangibleAssetsDevelopment
  | AccumulatedAmortization
  | NetIntangibleAssets
  | LongTermAssets
  | Assets
  | CurrentPayables
  | CurrentBorrowings
  | CurrentNotesPayable
  | OtherCurrentLiabilities
  | InterestPayable
  | CurrentProvisions
  | CurrentTaxPayables
  | LiabilitiesSaleAssets
  | CurrentLeasesLiability
  | CurrentLiabilities
  | AccountPayables
  | LongTermBorrowings
  | BondsPayable
  | DeferredTaxLiabilities
  | LongTermLeasesLiability
  | DeferredCompensation
  | DeferredRevenues
  | CustomerDeposits
  | OtherLongTermLiabilities
  | PensionProvision
  | TaxProvision
  | LongTermProvision
  | LongTermLiabilities
  | Liabilities
  | CommonStock
  | PreferredStock
  | PdInCapAbovePar
  | PdInCapTreasuryStock
  | RevaluationReserves
  | Reserves
  | RetainedEarnings
  | AccumulatedOCI
  | MinorityInterests
  | Equity
  | BalanceSheetCheck
deriving DecidableEq

/-- PlType - enum of all Profit and Loss line items (statements.rs). -/
inductive PlType
  | OperatingRevenue
  | NonOperatingRevenue
  | ExciseStaxLevy
  | OtherIncome
  | Revenue
  | CostMaterial
  | DirectExpenses
  | COGS
  | Salaries
  | AdministrativeExpenses
  | ResearchNDevelopment
  | OtherOverheads
  | OtherOperativeExpenses
  | OtherExpenses
  | ExceptionalItems
  | GrossProfit
  | EBITDA
  | Depreciation
  | TaxDepreciation
  | AssetImpairment
  | LossDivestitures
  | Amortization
  | EBITX
  | InterestRevenue
  | InterestExpense
  | CostDebt
  | OtherFinancialRevenue
  | EBTX
  | ExtraordinaryItems
  | PriorYears
  | EBT
  | TaxesCurrent
  | TaxesDeferred
  | EAT
  | NetIncomeDiscontinuedOps
  | NetIncome
  | Dividends
  | ContributionRetainedEarnings
  | GainsLossesForex
  | GainsLossesActurial
  | GrossSalesPPE
  | GrossSalesLeaseRentalAssets
  | GrossSalesIntangibleAssets
  | AccAmortSalesPPE
  | AccAmortSalesLeaseRental
  | AccAmortSalesIntangible
  | SalesAmountPPE
  | SalesAmountLeaseRentalAssets
  | SalesAmountIntangibleAssets
  | GainsLossesSales
  | FvChangeAvlSale
  | OtherDeferredTaxes
  | OtherComprehensiveIncome
  | TotalComprehensiveIncome
deriving DecidableEq

/-- CfType - enum of all Cash Flow line items (statements.rs). -/
inductive CfType
  | ChangeCurrentAssets
  | ChangeLongTermAssets
  | ChangeCurrentLiabilities
  | ChangeLongTermLiabilities
  | ChangeProvisions
  | ChangeRetainedEarnings
  | AdjustmentsRetainedEarnings
  | ChangeAccumulatedOci
  | OtherCashFlowOperations
  | CashFlowOperations
  | ChangePPE
  | ChangeReserves
  | AdjustmentsSalesAssets
  | InvestmentsCapDevp
  | InvestmentsLoans
  | ChangeEquityAssets
  | ChangeInvestments
  | OtherCashFlowInvestments
  | CashFlowInvestments
  | StockSalesAndPurchase
  | ChangeDebt
  | CashFlowInterests
  | CashFlowDividends
  | DonorContribution
  | OtherCashFlowFinancing
  | CashFlowFinancing
  | NetCashFlow
  | FreeCashFlowFirm
  | CashFlowTaxShield
  | FreeCashFlowEquity
  | CashFlowDebt
deriving DecidableEq

/-- FinOthersTyp - enum of auxiliary items (tax rates, ratios). -/
inductive FinOthersTyp
  | CorporateTaxRate
  | GrossProfitTaxRate
  | RevenueTaxRate
  | CurrentRatio
  | AcidRatio
  | DaysOfInventory
  | InventoryTurnoverRatio
deriving DecidableEq

/-- Currency enum from lib.rs (carried on the Accounts struct). -/
inductive Currency
  | INR
  | USD
  | NGN
  | EUR
  | GBP
  | CNY
  | MZN
  | ZAR
deriving DecidableEq

/-- BalanceSheetEntry - the debit/credit polarity of an entered BS item. -/
inductive BalanceSheetEntry
  | AssetEntry
  | AssetContra
  | LiabilityEntry
  | LiabilityContra
  | EquityEntry
  | EquityContra
deriving DecidableEq

open BsType PlType CfType FinOthersTyp BalanceSheetEntry

/-- A statement map: `HashMap<K, f64>` modelled as a function to `Option ℚ`. -/
abbrev FMap (κ : Type) := κ → Option ℚ

/-- Update of one key of a statement map (`insert k v` / `remove k`). -/
def mupdate [DecidableEq κ] (m : FMap κ) (k : κ) (v : Option ℚ) : FMap κ :=
  fun x => if x = k then v else m x

/-- Source `value`: `*self.get(&k).unwrap_or(&0.0)` - absent keys read as 0. -/
def mvalue (m : FMap κ) (k : κ) : ℚ :=
  (m k).getD 0

/-- The materiality threshold 1e-5 of statements.rs. -/
def materiality : ℚ := 1 / 100000

/-- Computable absolute value on the rationals (`f64::abs`). -/
def qabs (p : ℚ) : ℚ := if p < 0 then -p else p

/-- Computable minimum on the rationals (`f64::min`). -/
def qmin (a b : ℚ) : ℚ := if a ≤ b then a else b

/-- Computable maximum on the rationals (`f64::max`). -/
def qmax (a b : ℚ) : ℚ := if a ≤ b then b else a

/-- Source `calc_elem`: sum of positive contributors minus sum of negative
contributors, each read with absent-means-0 semantics. -/
def calc_elem (m : FMap κ) (d b : List κ) : ℚ :=
  (d.map (mvalue m)).sum - (b.map (mvalue m)).sum

/-- A roll-up rule table: ordered list of (target, positives, negatives). -/
abbrev Rules (κ : Type) := List (κ × List κ × List κ)

/-- The roll-up value of one rule against a map. -/
def rollup (m : FMap κ) (r : κ × List κ × List κ) : ℚ :=
  calc_elem m r.2.1 r.2.2

/-- Materiality filter used by `calc_elements`: insert when `|p| > 1e-5`,
otherwise remove the key. -/
def thresh (p : ℚ) : Option ℚ :=
  if materiality < qabs p then some p else none

/-- One iteration of the `calc_elements` loop body. -/
def calcStep [DecidableEq κ] (m : FMap κ) (r : κ × List κ × List κ) : FMap κ :=
  mupdate m r.1 (thresh (rollup m r))

/-- Source `calc_elements`: fold the rule table in declared order, inserting
each target when material and removing it when not. -/
def calc_elements [DecidableEq κ] (rules : Rules κ) (m : FMap κ) : FMap κ :=
  rules.foldl calcStep m

/-- The targets (calculated keys) of a rule table, in declared order. -/
def targetsOf (rules : Rules κ) : List κ :=
  rules.map (fun r => r.1)

/-- BALANCE_SHEET_MAP static rule table of statements.rs. -/
def BALANCE_SHEET_MAP : Rules BsType := [
  (Inventories, ([RawMaterials, WorkInProgress, FinishedGoods], [])),
  (CurrentAssets,
    ([Cash, CurrentReceivables, CurrentLoans, CurrentAdvances, OtherCurrentAssets,
      CurrentInvestments, Inventories], [])),
  (NetPlantPropertyEquipment, ([PlantPropertyEquipment], [AccumulatedDepreciation])),
  (NetLeaseRentalAssets, ([LeasingRentalAssets], [AccumulatedAmortizationLease])),
  (NetIntangibleAssets,
    ([IntangibleAssets, IntangibleAssetsDevelopment], [AccumulatedAmortization])),
  (LongTermAssets,
    ([AccountReceivables, LongTermLoanAssets, LongTermAdvances, LongTermInvestments,
      OtherLongTermAssets, NetPlantPropertyEquipment, NetLeaseRentalAssets, Goodwill,
      CapitalWip, OtherTangibleAssets, NetIntangibleAssets], [])),
  (Assets, ([CurrentAssets, LongTermAssets], [])),
  (CurrentLiabilities,
    ([CurrentPayables, CurrentBorrowings, CurrentNotesPayable, OtherCurrentLiabilities,
      InterestPayable, CurrentProvisions, CurrentTaxPayables, LiabilitiesSaleAssets,
      CurrentLeasesLiability], [])),
  (LongTermLiabilities,
    ([AccountPayables, LongTermBorrowings, BondsPayable, DeferredTaxLiabilities,
      LongTermLeasesLiability, DeferredCompensation, DeferredRevenues, CustomerDeposits,
      OtherLongTermLiabilities, PensionProvision, TaxProvision, LongTermProvision], [])),
  (Liabilities, ([CurrentLiabilities, LongTermLiabilities], [])),
  (Equity,
    ([CommonStock, PreferredStock, PdInCapAbovePar, PdInCapTreasuryStock,
      RevaluationReserves, Reserves, RetainedEarnings, AccumulatedOCI,
      MinorityInterests], [])),
  (BalanceSheetCheck, ([Assets], [Liabilities, Equity]))]

/-- PROFIT_LOSS_MAP static rule table of statements.rs. -/
def PROFIT_LOSS_MAP : Rules PlType := [
  (Revenue, ([OperatingRevenue, NonOperatingRevenue], [ExciseStaxLevy])),
  (COGS, ([CostMaterial, DirectExpenses], [])),
  (GrossProfit, ([Revenue], [COGS])),
  (EBITDA,
    ([GrossProfit, OtherIncome],
     [Salaries, AdministrativeExpenses, ResearchNDevelopment, OtherOverheads,
      OtherOperativeExpenses, OtherExpenses, ExceptionalItems])),
  (EBITX, ([EBITDA], [Depreciation, AssetImpairment, LossDivestitures, Amortization])),
  (EBTX, ([EBITX, InterestRevenue, OtherFinancialRevenue], [InterestExpense, CostDebt])),
  (EBT, ([EBTX], [ExtraordinaryItems, PriorYears])),
  (EAT, ([EBT], [TaxesCurrent, TaxesDeferred])),
  (NetIncome, ([EAT, NetIncomeDiscontinuedOps], [])),
  (ContributionRetainedEarnings, ([NetIncome], [Dividends])),
  (GainsLossesSales,
    ([SalesAmountPPE, SalesAmountLeaseRentalAssets, SalesAmountIntangibleAssets,
      AccAmortSalesPPE, AccAmortSalesLeaseRental, AccAmortSalesIntangible],
     [GrossSalesPPE, GrossSalesLeaseRentalAssets, GrossSalesIntangibleAssets])),
  (OtherComprehensiveIncome,
    ([GainsLossesForex, GainsLossesActurial, GainsLossesSales, FvChangeAvlSale],
     [OtherDeferredTaxes])),
  (TotalComprehensiveIncome, ([NetIncome, OtherComprehensiveIncome], []))]

/-- CASH_FLOW_MAP static rule table of statements.rs. -/
def CASH_FLOW_MAP : Rules CfType := [
  (CashFlowOperations,
    ([ChangeCurrentLiabilities, ChangeLongTermLiabilities, ChangeProvisions,
      ChangeRetainedEarnings, AdjustmentsRetainedEarnings, ChangeAccumulatedOci,
      OtherCashFlowOperations],
     [ChangeCurrentAssets, ChangeLongTermAssets])),
  (CashFlowInvestments,
    ([OtherCashFlowInvestments, AdjustmentsSalesAssets, ChangeReserves],
     [ChangePPE, InvestmentsCapDevp, InvestmentsLoans, ChangeEquityAssets,
      ChangeInvestments])),
  (CashFlowFinancing,
    ([StockSalesAndPurchase, ChangeDebt, DonorContribution, OtherCashFlowFinancing],
     [CashFlowInterests, CashFlowDividends])),
  (NetCashFlow, ([CashFlowOperations, CashFlowInvestments, CashFlowFinancing], [])),
  (FreeCashFlowEquity,
    ([CashFlowOperations, ChangeDebt, ChangeReserves, AdjustmentsSalesAssets],
     [CashFlowInterests, ChangePPE])),
  (CashFlowDebt, ([CashFlowInterests], [ChangeDebt])),
  (FreeCashFlowFirm, ([FreeCashFlowEquity, CashFlowDebt], [CashFlowTaxShield]))]

/-- CASH_FLOW_BALANCE_SHEET cross-statement table: CF item from BS deltas. -/
def CASH_FLOW_BALANCE_SHEET : List (CfType × List BsType × List BsType) := [
  (ChangeCurrentAssets,
    ([CurrentReceivables, CurrentLoans, CurrentAdvances, OtherCurrentAssets,
      CurrentInvestments, RawMaterials, WorkInProgress, FinishedGoods], [])),
  (ChangeLongTermAssets,
    ([AccountReceivables, LongTermAdvances, CapitalWip],
     [AccumulatedDepreciation, AccumulatedAmortizationLease, AccumulatedAmortization])),
  (ChangeCurrentLiabilities,
    ([CurrentPayables, CurrentBorrowings, CurrentNotesPayable, OtherCurrentLiabilities,
      InterestPayable, CurrentProvisions, CurrentTaxPayables, LiabilitiesSaleAssets,
      CurrentLeasesLiability], [])),
  (ChangeLongTermLiabilities,
    ([AccountPayables, DeferredTaxLiabilities, DeferredCompensation, DeferredRevenues,
      CustomerDeposits, OtherLongTermLiabilities], [])),
  (ChangeProvisions, ([PensionProvision, TaxProvision, LongTermProvision], [])),
  (ChangeRetainedEarnings, ([RetainedEarnings], [])),
  (ChangeAccumulatedOci, ([AccumulatedOCI], [])),
  (ChangePPE, ([PlantPropertyEquipment, LeasingRentalAssets], [])),
  (ChangeReserves, ([RevaluationReserves, Reserves], [])),
  (InvestmentsCapDevp, ([IntangibleAssetsDevelopment], [])),
  (InvestmentsLoans, ([LongTermLoanAssets], [])),
  (ChangeEquityAssets, ([IntangibleAssets], [])),
  (ChangeInvestments, ([LongTermInvestments, Goodwill], [])),
  (OtherCashFlowInvestments, ([], [OtherLongTermAssets, OtherTangibleAssets])),
  (StockSalesAndPurchase,
    ([CommonStock, PreferredStock, PdInCapAbovePar, PdInCapTreasuryStock], [])),
  (ChangeDebt, ([LongTermBorrowings, BondsPayable, LongTermLeasesLiability], [])),
  (OtherCashFlowFinancing, ([MinorityInterests], []))]

/-- CASH_FLOW_PROFIT_LOSS cross-statement table: CF item from PL items. -/
def CASH_FLOW_PROFIT_LOSS : List (CfType × List PlType × List PlType) := [
  (CashFlowInterests, ([InterestExpense, CostDebt], [])),
  (CashFlowDividends, ([Dividends], [])),
  (AdjustmentsRetainedEarnings,
    ([InterestExpense, CostDebt, Dividends, AccAmortSalesPPE, AccAmortSalesLeaseRental,
      AccAmortSalesIntangible],
     [GainsLossesSales])),
  (AdjustmentsSalesAssets,
    ([GainsLossesSales],
     [AccAmortSalesPPE, AccAmortSalesLeaseRental, AccAmortSalesIntangible]))]

/-- Source `BsType::is_calc`: membership in the BS rule table key set. -/
def BsType.is_calc (k : BsType) : Bool :=
  decide (k ∈ targetsOf BALANCE_SHEET_MAP)

/-- Source `PlType::is_calc`: membership in the PL rule table key set. -/
def PlType.is_calc (k : PlType) : Bool :=
  decide (k ∈ targetsOf PROFIT_LOSS_MAP)

/-- Source `CfType::is_calc`: membership in the CF rule table key set. -/
def CfType.is_calc (k : CfType) : Bool :=
  decide (k ∈ targetsOf CASH_FLOW_MAP)

/-- The `calc_elements` instance for BsMap. -/
def bs_calc_elements (m : FMap BsType) : FMap BsType :=
  calc_elements BALANCE_SHEET_MAP m

/-- The `calc_elements` instance for PlMap. -/
def pl_calc_elements (m : FMap PlType) : FMap PlType :=
  calc_elements PROFIT_LOSS_MAP m

/-- The `calc_elements` instance for CfMap. -/
def cf_calc_elements (m : FMap CfType) : FMap CfType :=
  calc_elements CASH_FLOW_MAP m

/-- Source `BsMap::add`: accumulate `v` onto key `k` (insert when absent);
`none` models the `panic!` guard on calculated items. -/
def bs_add (m : FMap BsType) (k : BsType) (v : ℚ) : Option (FMap BsType) :=
  if k.is_calc then none else some (mupdate m k (some (mvalue m k + v)))

/-- Source `BsMap::upsert`: replace the value at key `k` (insert when absent);
`none` models the `panic!` guard on calculated items. -/
def bs_upsert (m : FMap BsType) (k : BsType) (v : ℚ) : Option (FMap BsType) :=
  if k.is_calc then none else some (mupdate m k (some v))

/-- Source `PlMap::add`. -/
def pl_add (m : FMap PlType) (k : PlType) (v : ℚ) : Option (FMap PlType) :=
  if k.is_calc then none else some (mupdate m k (some (mvalue m k + v)))

/-- Source `PlMap::upsert`. -/
def pl_upsert (m : FMap PlType) (k : PlType) (v : ℚ) : Option (FMap PlType) :=
  if k.is_calc then none else some (mupdate m k (some v))

/-- Source `CfMap::add`. -/
def cf_add (m : FMap CfType) (k : CfType) (v : ℚ) : Option (FMap CfType) :=
  if k.is_calc then none else some (mupdate m k (some (mvalue m k + v)))

/-- Source `CfMap::upsert`. -/
def cf_upsert (m : FMap CfType) (k : CfType) (v : ℚ) : Option (FMap CfType) :=
  if k.is_calc then none else some (mupdate m k (some v))

/-- The function a successful `BsMap::common_size` returns: every entry of the
map divided by the scale read at the Assets anchor. -/
def common_size_fun (m : FMap BsType) (scale : ℚ) : FMap BsType :=
  fun k => (m k).map (fun v => v / scale)

/-- Source `BsMap::common_size`: `let scale = self[&Assets]` - the `Index`
lookup panics (modelled as `none`) when Assets is absent - then divides every
entry by the scale. -/
def bs_common_size (m : FMap BsType) : Option (FMap BsType) :=
  match m Assets with
  | none => none
  | some scale => some (common_size_fun m scale)

/-- Association-list lookup, modelling `BTreeMap::get` / `HashMap::get` on the
first (unique) matching key. -/
def alookup [DecidableEq α] (k : α) : List (α × β) → Option β
  | [] => none
  | (a, b) :: t => if a = k then some b else alookup k t

/-- Association-list in-place replacement at an existing key, modelling
mutation through `BTreeMap::get_mut`. -/
def aupdate [DecidableEq α] (k : α) (v : β) : List (α × β) → List (α × β)
  | [] => []
  | (a, b) :: t => if a = k then (a, v) :: t else (a, b) :: aupdate k v t

/-- Debit/credit polarity map produced by the resolver. -/
abbrev DebitMap := BsType → Option BalanceSheetEntry

/-- Insertion into the polarity map (`HashMap::insert`, last write wins). -/
def dupdate (m : DebitMap) (k : BsType) (v : BalanceSheetEntry) : DebitMap :=
  fun x => if x = k then some v else m x

/-- Source `debit_mapping`: recursive walk of the BS rule table propagating
Entry/Contra polarities; positives keep the pair, negatives swap it, and only
entered leaves are inserted. The source recursion is bounded by the acyclic
rule DAG; here an explicit fuel bounds it, and any fuel at least the DAG depth
(3) yields the same map. -/
def debit_mapping : Nat → DebitMap → BsType → BalanceSheetEntry → BalanceSheetEntry → DebitMap
  | 0, mz, _, _, _ => mz
  | Nat.succ fuel, mz, calc_type, calc_pos, calc_neg =>
    match alookup calc_type BALANCE_SHEET_MAP with
    | none => mz
    | some (a, b) =>
      let mz1 := a.foldl
        (fun mz x =>
          if x.is_calc then debit_mapping fuel mz x calc_pos calc_neg
          else dupdate mz x calc_pos) mz
      b.foldl
        (fun mz x =>
          if x.is_calc then debit_mapping fuel mz x calc_neg calc_pos
          else dupdate mz x calc_neg) mz1

/-- The empty polarity map. -/
def emptyDebitMap : DebitMap := fun _ => none

/-- Source `DEBIT_TYPE` static: the resolver run from the Assets, Liabilities
and Equity roots in that order. -/
def DEBIT_TYPE : DebitMap :=
  debit_mapping 10
    (debit_mapping 10
      (debit_mapping 10 emptyDebitMap Assets AssetEntry AssetContra)
      Liabilities LiabilityEntry LiabilityContra)
    Equity EquityEntry EquityContra

/-- Source `BsMap::debit`: `DEBIT_TYPE[&k]` (an `Index` lookup that panics on
items without polarity, modelled as `none`), then `add` with the sign given by
the polarity. -/
def bs_debit (m : FMap BsType) (k : BsType) (v : ℚ) : Option (FMap BsType) :=
  match DEBIT_TYPE k with
  | none => none
  | some AssetEntry => bs_add m k v
  | some LiabilityContra => bs_add m k v
  | some EquityContra => bs_add m k v
  | some _ => bs_add m k (-v)

/-- Source `BsMapTrait::credit`: `debit` with the negated amount. -/
def bs_credit (m : FMap BsType) (k : BsType) (v : ℚ) : Option (FMap BsType) :=
  bs_debit m k (-v)

/-- Observation of a debit-then-credit posting: the value stored at the item
after `debit(map, k, v)` followed by `credit(_, k, v)`, or `none` when either
posting panics. -/
def debit_credit_value (m : FMap BsType) (k : BsType) (v : ℚ) : Option ℚ :=
  match bs_debit m k v with
  | none => none
  | some m1 =>
    match bs_credit m1 k v with
    | none => none
    | some m2 => some (mvalue m2 k)

/-- Source `depreciation_tax_adjust`: pretax depreciation minus tax
depreciation when the latter is recorded, else 0. -/
def depreciation_tax_adjust (pl : FMap PlType) : ℚ :=
  match pl TaxDepreciation with
  | some x => (pl Depreciation).getD 0 - x
  | none => 0

/-- One iteration of the CF-from-PL loop of `calc_cash_flow`: insert the rule
value only when it exceeds the materiality threshold. -/
def cf_from_pl_step (pl : FMap PlType) (cf : FMap CfType)
    (r : CfType × List PlType × List PlType) : FMap CfType :=
  if materiality < qabs (calc_elem pl r.2.1 r.2.2) then
    mupdate cf r.1 (some (calc_elem pl r.2.1 r.2.2))
  else cf

/-- One iteration of the CF-from-BS loop of `calc_cash_flow`: the rule value is
the ending-balance evaluation minus the beginning-balance evaluation, inserted
only when it exceeds the materiality threshold. -/
def cf_from_bs_step (b0 b1 : FMap BsType) (cf : FMap CfType)
    (r : CfType × List BsType × List BsType) : FMap CfType :=
  if materiality < qabs (calc_elem b1 r.2.1 r.2.2 - calc_elem b0 r.2.1 r.2.2) then
    mupdate cf r.1 (some (calc_elem b1 r.2.1 r.2.2 - calc_elem b0 r.2.1 r.2.2))
  else cf

/-- The tax-shield value of `calc_cash_flow`, given the interest figure read
back from the derived CF map. -/
def cash_flow_tax_shield (intr : ℚ) (pl : FMap PlType)
    (corp_tax gp_tax revenue_tax : ℚ) : ℚ :=
  qmin (corp_tax * intr)
    (qmax 0
      (corp_tax * (mvalue pl EBT + intr + depreciation_tax_adjust pl)
        + gp_tax * mvalue pl GrossProfit
        - revenue_tax * mvalue pl Revenue))

/-- The empty CfMap (`CfMap::new()`). -/
def emptyCfMap : FMap CfType := fun _ => none

/-- Source `calc_cash_flow`: derive the entered CF items from the PL map and
the two BS snapshots, then unconditionally insert the tax shield. -/
def calc_cash_flow (b0 b1 : FMap BsType) (pl : FMap PlType)
    (corp_tax gp_tax revenue_tax : ℚ) : FMap CfType :=
  let cf1 := CASH_FLOW_PROFIT_LOSS.foldl (cf_from_pl_step pl) emptyCfMap
  let cf2 := CASH_FLOW_BALANCE_SHEET.foldl (cf_from_bs_step b0 b1) cf1
  mupdate cf2 CashFlowTaxShield
    (some (cash_flow_tax_shield ((cf2 CashFlowInterests).getD 0) pl
      corp_tax gp_tax revenue_tax))

/-- The Accounts multi-period store of statements.rs, with dates as day
numbers and the BTreeMaps as association lists. -/
structure Accounts where
  currency : Currency
  consolidated : Bool
  dates : List Int
  balance_sheet : List (Int × FMap BsType)
  profit_loss : List ((Int × Int) × FMap PlType)
  cash_flow : List ((Int × Int) × FMap CfType)
  others : List ((Int × Int) × FMap FinOthersTyp)

/-- The PL period keys of an Accounts store, in stored order. -/
def pl_period_keys (a : Accounts) : List (Int × Int) :=
  a.profit_loss.map (fun e => e.1)

/-- Source `Accounts::split_periods`: annual bucket where
`d0 + Duration::days(120) < d1`, quarterly bucket where
`d0 + Duration::days(120) > d1`. -/
def split_periods (a : Accounts) : List (Int × Int) × List (Int × Int) :=
  let dts := pl_period_keys a
  (dts.filter (fun p => decide (p.1 + 120 < p.2)),
   dts.filter (fun p => decide (p.1 + 120 > p.2)))

/-- Source `Accounts::calc_elements`: apply the per-map derivation to every
stored BS, PL and CF map. -/
def accounts_calc_elements (a : Accounts) : Accounts :=
  { a with
    balance_sheet := a.balance_sheet.map (fun e => (e.1, bs_calc_elements e.2))
    profit_loss := a.profit_loss.map (fun e => (e.1, pl_calc_elements e.2))
    cash_flow := a.cash_flow.map (fun e => (e.1, cf_calc_elements e.2)) }

/-- Source `Accounts::get_balance_sheet`: `unwrap` of the period lookup
(modelled as `none` when the date is absent), then item-or-0. -/
def get_balance_sheet (a : Accounts) (d : Int) (ty : BsType) : Option ℚ :=
  (alookup d a.balance_sheet).map (fun m => mvalue m ty)

/-- Source `Accounts::get_profit_loss`. -/
def get_profit_loss (a : Accounts) (d : Int × Int) (ty : PlType) : Option ℚ :=
  (alookup d a.profit_loss).map (fun m => mvalue m ty)

/-- Source `Accounts::get_cash_flow`. -/
def get_cash_flow (a : Accounts) (d : Int × Int) (ty : CfType) : Option ℚ :=
  (alookup d a.cash_flow).map (fun m => mvalue m ty)

/-- Source `Accounts::put_balance_sheet`: `panic!` on a calculated item, then
`unwrap` of the period lookup (both modelled as `none`), then `insert`. -/
def put_balance_sheet (a : Accounts) (d : Int) (ty : BsType) (val : ℚ) :
    Option Accounts :=
  if ty.is_calc then none
  else
    match alookup d a.balance_sheet with
    | none => none
    | some m =>
      some { a with balance_sheet := aupdate d (mupdate m ty (some val)) a.balance_sheet }

/-- Source `Accounts::put_profit_loss`. -/
def put_profit_loss (a : Accounts) (d : Int × Int) (ty : PlType) (val : ℚ) :
    Option Accounts :=
  if ty.is_calc then none
  else
    match alookup d a.profit_loss with
    | none => none
    | some m =>
      some { a with profit_loss := aupdate d (mupdate m ty (some val)) a.profit_loss }

/-- Source `Accounts::put_cash_flow`. -/
def put_cash_flow (a : Accounts) (d : Int × Int) (ty : CfType) (val : ℚ) :
    Option Accounts :=
  if ty.is_calc then none
  else
    match alookup d a.cash_flow with
    | none => none
    | some m =>
      some { a with cash_flow := aupdate d (mupdate m ty (some val)) a.cash_flow }

/-- The TaxesCurrent value `calc_tax` computes for one period: the greater of
(tax-adjusted EBT x corporate rate + EBITDA x gross-profit rate) and
(Revenue x revenue rate), with each rate read with absent-means-0 semantics. -/
def tax_formula (pl : FMap PlType) (oth : FMap FinOthersTyp) : ℚ :=
  qmax ((mvalue pl EBT + depreciation_tax_adjust pl) * mvalue oth CorporateTaxRate
        + mvalue pl EBITDA * mvalue oth GrossProfitTaxRate)
      (mvalue pl Revenue * mvalue oth RevenueTaxRate)

/-- Sequential Option-valued map over a list, modelling a loop whose body can
panic: the whole loop fails when any iteration does. -/
def omapM (f : α → Option β) : List α → Option (List β)
  | [] => some []
  | a :: t =>
    match f a, omapM f t with
    | some b, some bt => some (b :: bt)
    | _, _ => none

/-- One iteration of the `calc_tax` loop on a PL entry: `unwrap` of the others
lookup (modelled as `none` when absent), then `put_profit_loss` of the computed
TaxesCurrent (whose calculated-item guard never fires: TaxesCurrent is an
entered item). -/
def tax_entry (oth : List ((Int × Int) × FMap FinOthersTyp))
    (e : (Int × Int) × FMap PlType) : Option ((Int × Int) × FMap PlType) :=
  match alookup e.1 oth with
  | none => none
  | some o =>
    if PlType.is_calc TaxesCurrent then none
    else some (e.1, mupdate e.2 TaxesCurrent (some (tax_formula e.2 o)))

/-- Source `Accounts::calc_tax`: first `self.calc_elements()`, then for every
PL period set TaxesCurrent from the freshly derived figures. Each period's key
is distinct (BTreeMap invariant), so the loop is the per-entry map `tax_entry`
over the derived PL store. -/
def calc_tax (a : Accounts) : Option Accounts :=
  match omapM (tax_entry (accounts_calc_elements a).others)
      (accounts_calc_elements a).profit_loss with
  | none => none
  | some l => some { accounts_calc_elements a with profit_loss := l }

/-- The empty BsMap. -/
def emptyBsMap : FMap BsType := fun _ => none

/-- The empty PlMap. -/
def emptyPlMap : FMap PlType := fun _ => none

/-- The empty others map. -/
def emptyOthersMap : FMap FinOthersTyp := fun _ => none

/-- A rule table is well ordered when targets are pairwise distinct and every
rule's contributors avoid its own target and all later targets; the three
static tables satisfy this by construction (the ordering assumption documented
in the source). -/
def wellOrderedB [DecidableEq κ] : Rules κ → Bool
  | [] => true
  | r :: t =>
    decide (r.1 ∉ targetsOf t)
      && (r.2.1 ++ r.2.2).all (fun c => decide (c ≠ r.1) && decide (c ∉ targetsOf t))
      && wellOrderedB t

/-- A BsMap holding only Cash = 1e-6, below the materiality threshold. -/
def mC1 : FMap BsType := mupdate emptyBsMap Cash (some (1 / 1000000))

/-- A BsMap holding only Cash = 7. -/
def mC1W : FMap BsType := mupdate emptyBsMap Cash (some 7)

/-- A one-period Accounts store: PL = (OperatingRevenue 100) over (0, 360),
corporate tax rate 1/2, no BS or CF data. -/
def acctC2 : Accounts :=
  { currency := Currency.USD
    consolidated := false
    dates := [0, 360]
    balance_sheet := []
    profit_loss := [((0, 360), mupdate emptyPlMap OperatingRevenue (some 100))]
    cash_flow := []
    others := [((0, 360), mupdate emptyOthersMap CorporateTaxRate (some (1 / 2)))] }

/-- Probe of one PL figure of the period (0, 360) of a possible `calc_tax`
result (`none` when `calc_tax` panicked). -/
def probeC2 (x : Option Accounts) (k : PlType) : Option (Option ℚ) :=
  match x with
  | none => none
  | some a => some (get_profit_loss a (0, 360) k)

/-- The Accounts store `calc_tax` produces from `acctC2`. -/
def acctC2res : Accounts := (calc_tax acctC2).getD acctC2

/-- The PL map stored in `acctC2` at (0, 360). -/
def plC2 : FMap PlType := mupdate emptyPlMap OperatingRevenue (some 100)

/-- The others map stored in `acctC2` at (0, 360). -/
def othC2 : FMap FinOthersTyp := mupdate emptyOthersMap CorporateTaxRate (some (1 / 2))

/-- An Accounts store with a single PL period spanning exactly 120 days. -/
def acctC3 : Accounts :=
  { currency := Currency.USD
    consolidated := false
    dates := [0, 120]
    balance_sheet := []
    profit_loss := [((0, 120), emptyPlMap)]
    cash_flow := []
    others := [] }

/-- An Accounts store with one 121-day and one 119-day PL period. -/
def acctC3W : Accounts :=
  { currency := Currency.USD
    consolidated := false
    dates := [0, 119, 121]
    balance_sheet := []
    profit_loss := [((0, 121), emptyPlMap), ((0, 119), emptyPlMap)]
    cash_flow := []
    others := [] }

/-- An ending BsMap holding only CurrentReceivables = 7. -/
def bC4 : FMap BsType := mupdate emptyBsMap CurrentReceivables (some 7)

/-- A BsMap holding Cash but no Assets anchor. -/
def mC5 : FMap BsType := mupdate emptyBsMap Cash (some 1)

/-- An Accounts store holding one empty period of each statement at
date 0 / period (0, 360). -/
def acctC10 : Accounts :=
  { currency := Currency.USD
    consolidated := false
    dates := [0, 360]
    balance_sheet := [(0, emptyBsMap)]
    profit_loss := [((0, 360), emptyPlMap)]
    cash_flow := [((0, 360), emptyCfMap)]
    others := [] }

theorem mupdate_self [DecidableEq κ] (m : FMap κ) (k : κ) (v : Option ℚ) :
    mupdate m k v k = v := by
  simp [mupdate]

theorem mupdate_ne [DecidableEq κ] (m : FMap κ) (k x : κ) (v : Option ℚ)
    (h : x ≠ k) : mupdate m k v x = m x := by
  simp [mupdate, h]

theorem targetsOf_cons (r : κ × List κ × List κ) (t : Rules κ) :
    targetsOf (r :: t) = r.1 :: targetsOf t := by
  simp [targetsOf]

theorem calc_elements_not_target [DecidableEq κ] :
    ∀ (rules : Rules κ) (m : FMap κ) (x : κ),
      x ∉ targetsOf rules → calc_elements rules m x = m x := by
  intro rules
  induction rules with
  | nil => intro m x _; rfl
  | cons r t ih =>
    intro m x hx
    rw [targetsOf_cons] at hx
    have hx1 : x ≠ r.1 := fun h => hx (h ▸ List.mem_cons_self _ _)
    have hx2 : x ∉ targetsOf t := fun h => hx (List.mem_cons_of_mem _ h)
    show calc_elements t (calcStep m r) x = m x
    rw [ih (calcStep m r) x hx2]
    exact mupdate_ne m r.1 x _ hx1

theorem sum_mvalue_congr (m1 m2 : FMap κ) :
    ∀ (l : List κ), (∀ c ∈ l, m1 c = m2 c) →
      (l.map (mvalue m1)).sum = (l.map (mvalue m2)).sum := by
  intro l
  induction l with
  | nil => intro _; rfl
  | cons a t ih =>
    intro h
    simp only [List.map_cons, List.sum_cons]
    rw [ih (fun c hc => h c (List.mem_cons_of_mem _ hc))]
    have ha : m1 a = m2 a := h a (List.mem_cons_self _ _)
    simp [mvalue, ha]

theorem calc_elem_congr (m1 m2 : FMap κ) (d b : List κ)
    (hd : ∀ c ∈ d, m1 c = m2 c) (hb : ∀ c ∈ b, m1 c = m2 c) :
    calc_elem m1 d b = calc_elem m2 d b := by
  unfold calc_elem
  rw [sum_mvalue_congr m1 m2 d hd, sum_mvalue_congr m1 m2 b hb]

theorem calc_elements_spec [DecidableEq κ] :
    ∀ (rules : Rules κ), wellOrderedB rules = true →
      ∀ (m : FMap κ) (r : κ × List κ × List κ), r ∈ rules →
        calc_elements rules m r.1 = thresh (rollup (calc_elements rules m) r) := by
  intro rules
  induction rules with
  | nil => intro _ m r hr; exact absurd hr (List.not_mem_nil r)
  | cons r0 t ih =>
    intro hwo m r hr
    simp only [wellOrderedB, Bool.and_eq_true, decide_eq_true_eq, List.all_eq_true,
      List.mem_append] at hwo
    obtain ⟨⟨h0, hc⟩, ht⟩ := hwo
    rcases List.mem_cons.mp hr with h | h
    · subst h
      have hcontrib : ∀ c, c ∈ r.2.1 ∨ c ∈ r.2.2 →
          calc_elements (r :: t) m c = m c := by
        intro c hcm
        obtain ⟨hc1, hc2⟩ := by
          have := hc c hcm
          simpa [Bool.and_eq_true, decide_eq_true_eq] using this
        show calc_elements t (calcStep m r) c = m c
        rw [calc_elements_not_target t (calcStep m r) c hc2]
        exact mupdate_ne m r.1 c _ hc1
      have hroll : rollup (calc_elements (r :: t) m) r = rollup m r := by
        unfold rollup
        exact calc_elem_congr _ m r.2.1 r.2.2
          (fun c hcm => hcontrib c (Or.inl hcm))
          (fun c hcm => hcontrib c (Or.inr hcm))
      rw [hroll]
      show calc_elements t (calcStep m r) r.1 = thresh (rollup m r)
      rw [calc_elements_not_target t (calcStep m r) r.1 h0]
      exact mupdate_self m r.1 _
    · exact ih ht (calcStep m r0) r h

theorem calc_elements_congr [DecidableEq κ] :
    ∀ (rules : Rules κ) (m1 m2 : FMap κ), (∀ x, m1 x = m2 x) →
      ∀ x, calc_elements rules m1 x = calc_elements rules m2 x := by
  intro rules
  induction rules with
  | nil => intro m1 m2 h x; exact h x
  | cons r t ih =>
    intro m1 m2 h x
    show calc_elements t (calcStep m1 r) x = calc_elements t (calcStep m2 r) x
    apply ih
    intro y
    unfold calcStep rollup
    rw [calc_elem_congr m1 m2 r.2.1 r.2.2 (fun c _ => h c) (fun c _ => h c)]
    unfold mupdate
    by_cases hy : y = r.1 <;> simp [hy, h y]

theorem calc_elements_fix [DecidableEq κ] :
    ∀ (rules : Rules κ) (n : FMap κ),
      (∀ r ∈ rules, ∀ x, calcStep n r x = n x) →
      ∀ x, calc_elements rules n x = n x := by
  intro rules
  induction rules with
  | nil => intro n _ x; rfl
  | cons r t ih =>
    intro n h x
    show calc_elements t (calcStep n r) x = n x
    rw [calc_elements_congr t (calcStep n r) n (h r (List.mem_cons_self _ _))]
    exact ih n (fun s hs => h s (List.mem_cons_of_mem _ hs)) x

theorem calc_elements_idem [DecidableEq κ] (rules : Rules κ)
    (h : wellOrderedB rules = true) (m : FMap κ) (x : κ) :
    calc_elements rules (calc_elements rules m) x = calc_elements rules m x := by
  apply calc_elements_fix rules (calc_elements rules m)
  intro r hr y
  unfold calcStep
  by_cases hy : y = r.1
  · subst hy
    rw [mupdate_self]
    exact (calc_elements_spec rules h m r hr).symm
  · exact mupdate_ne _ r.1 y _ hy

theorem calc_elements_material [DecidableEq κ] (rules : Rules κ)
    (h : wellOrderedB rules = true) (m : FMap κ) (k : κ)
    (hk : k ∈ targetsOf rules) (v : ℚ)
    (hv : calc_elements rules m k = some v) : materiality < qabs v := by
  obtain ⟨r, hr, hrk⟩ := List.mem_map.mp hk
  subst hrk
  have hs := calc_elements_spec rules h m r hr
  rw [hv] at hs
  unfold thresh at hs
  by_cases hcond : materiality < qabs (rollup (calc_elements rules m) r)
  · rw [if_pos hcond] at hs
    cases hs
    exact hcond
  · rw [if_neg hcond] at hs
    exact absurd hs (by simp)

theorem bs_wellOrdered : wellOrderedB BALANCE_SHEET_MAP = true := by decide

theorem pl_wellOrdered : wellOrderedB PROFIT_LOSS_MAP = true := by decide

theorem cf_wellOrdered : wellOrderedB CASH_FLOW_MAP = true := by decide

/-- C1: refuted as stated. In the map holding only Cash = 1e-6, the
CurrentAssets rule of BALANCE_SHEET_MAP rolls up to 1e-6, yet after
`calc_elements()` the value of CurrentAssets is 0 (the key was removed as
immaterial), so `value(calculated_item)` differs from the sum over its rule's
contributors. -/
theorem C1_counterexample :
    (CurrentAssets,
      ([Cash, CurrentReceivables, CurrentLoans, CurrentAdvances, OtherCurrentAssets,
        CurrentInvestments, Inventories], ([] : List BsType))) ∈ BALANCE_SHEET_MAP
    ∧ mvalue (bs_calc_elements mC1) CurrentAssets = 0
    ∧ mvalue (bs_calc_elements mC1) CurrentAssets ≠ calc_elem (bs_calc_elements mC1)
        [Cash, CurrentReceivables, CurrentLoans, CurrentAdvances, OtherCurrentAssets,
         CurrentInvestments, Inventories] [] := by
  with_unfolding_all decide

/-- C1 (amended): for every calculated line item of a BsMap, PlMap or CfMap,
after `calc_elements()` the item equals the sum of its rule's positive
contributors minus its negative contributors (recursively, over the final
values) whenever that roll-up exceeds the 1e-5 materiality threshold in
magnitude; when it does not, the key is absent (so `value` reads 0 instead of
the sub-threshold roll-up). -/
theorem C1_rollup_amended :
    (∀ (m : FMap BsType), ∀ r ∈ BALANCE_SHEET_MAP,
      (materiality < qabs (rollup (bs_calc_elements m) r) →
        bs_calc_elements m r.1 = some (rollup (bs_calc_elements m) r))
      ∧ (¬ materiality < qabs (rollup (bs_calc_elements m) r) →
        bs_calc_elements m r.1 = none))
    ∧ (∀ (m : FMap PlType), ∀ r ∈ PROFIT_LOSS_MAP,
      (materiality < qabs (rollup (pl_calc_elements m) r) →
        pl_calc_elements m r.1 = some (rollup (pl_calc_elements m) r))
      ∧ (¬ materiality < qabs (rollup (pl_calc_elements m) r) →
        pl_calc_elements m r.1 = none))
    ∧ (∀ (m : FMap CfType), ∀ r ∈ CASH_FLOW_MAP,
      (materiality < qabs (rollup (cf_calc_elements m) r) →
        cf_calc_elements m r.1 = some (rollup (cf_calc_elements m) r))
      ∧ (¬ materiality < qabs (rollup (cf_calc_elements m) r) →
        cf_calc_elements m r.1 = none)) := by
  refine ⟨fun m r hr => ?_, fun m r hr => ?_, fun m r hr => ?_⟩
  · have h := calc_elements_spec BALANCE_SHEET_MAP bs_wellOrdered m r hr
    constructor
    · intro hc
      rw [show bs_calc_elements m r.1 = thresh (rollup (bs_calc_elements m) r) from h]
      unfold thresh
      rw [if_pos hc]
    · intro hc
      rw [show bs_calc_elements m r.1 = thresh (rollup (bs_calc_elements m) r) from h]
      unfold thresh
      rw [if_neg hc]
  · have h := calc_elements_spec PROFIT_LOSS_MAP pl_wellOrdered m r hr
    constructor
    · intro hc
      rw [show pl_calc_elements m r.1 = thresh (rollup (pl_calc_elements m) r) from h]
      unfold thresh
      rw [if_pos hc]
    · intro hc
      rw [show pl_calc_elements m r.1 = thresh (rollup (pl_calc_elements m) r) from h]
      unfold thresh
      rw [if_neg hc]
  · have h := calc_elements_spec CASH_FLOW_MAP cf_wellOrdered m r hr
    constructor
    · intro hc
      rw [show cf_calc_elements m r.1 = thresh (rollup (cf_calc_elements m) r) from h]
      unfold thresh
      rw [if_pos hc]
    · intro hc
      rw [show cf_calc_elements m r.1 = thresh (rollup (cf_calc_elements m) r) from h]
      unfold thresh
      rw [if_neg hc]

/-- C1 witness: with Cash = 7, CurrentAssets rolls up to 7 (material), and the
amended theorem yields the stored value 7. -/
theorem C1_rollup_amended_witness :
    bs_calc_elements mC1W CurrentAssets = some 7 := by
  have h := (C1_rollup_amended.1 mC1W
    (CurrentAssets,
      ([Cash, CurrentReceivables, CurrentLoans, CurrentAdvances, OtherCurrentAssets,
        CurrentInvestments, Inventories], ([] : List BsType)))
    (by decide)).1 (by with_unfolding_all decide)
  exact h.trans (by with_unfolding_all decide)

/-- C9: `calc_elements()` never inserts or removes an entered (non-calculated)
key: for every statement map and every key outside the rule table's target
set, presence and value are exactly unchanged. -/
theorem C9_frame :
    (∀ (m : FMap BsType) (k : BsType), BsType.is_calc k = false →
      bs_calc_elements m k = m k)
    ∧ (∀ (m : FMap PlType) (k : PlType), PlType.is_calc k = false →
      pl_calc_elements m k = m k)
    ∧ (∀ (m : FMap CfType) (k : CfType), CfType.is_calc k = false →
      cf_calc_elements m k = m k) := by
  refine ⟨fun m k h => ?_, fun m k h => ?_, fun m k h => ?_⟩
  · have h' : decide (k ∈ targetsOf BALANCE_SHEET_MAP) = false := h
    exact calc_elements_not_target BALANCE_SHEET_MAP m k (of_decide_eq_false h')
  · have h' : decide (k ∈ targetsOf PROFIT_LOSS_MAP) = false := h
    exact calc_elements_not_target PROFIT_LOSS_MAP m k (of_decide_eq_false h')
  · have h' : decide (k ∈ targetsOf CASH_FLOW_MAP) = false := h
    exact calc_elements_not_target CASH_FLOW_MAP m k (of_decide_eq_false h')

/-- C9 witness: entered keys keep their entries across `calc_elements()` on
concrete maps of all three statements. -/
theorem C9_frame_witness :
    bs_calc_elements mC1W Cash = some 7
    ∧ pl_calc_elements emptyPlMap Salaries = none
    ∧ cf_calc_elements emptyCfMap ChangeDebt = none := by
  refine ⟨?_, ?_, ?_⟩
  · exact (C9_frame.1 mC1W Cash (by decide)).trans (by with_unfolding_all decide)
  · exact (C9_frame.2.1 emptyPlMap Salaries (by decide)).trans rfl
  · exact (C9_frame.2.2 emptyCfMap ChangeDebt (by decide)).trans rfl

/-- C8: after `calc_elements()` no calculated key is present with magnitude at
or below the 1e-5 materiality threshold (a sub-threshold roll-up leaves the key
absent), and `calc_elements()` is idempotent: a second run leaves every key's
presence and value exactly unchanged - for all three statement maps. -/
theorem C8_materiality_idem :
    (∀ (m : FMap BsType) (k : BsType) (v : ℚ), BsType.is_calc k = true →
      bs_calc_elements m k = some v → materiality < qabs v)
    ∧ (∀ (m : FMap PlType) (k : PlType) (v : ℚ), PlType.is_calc k = true →
      pl_calc_elements m k = some v → materiality < qabs v)
    ∧ (∀ (m : FMap CfType) (k : CfType) (v : ℚ), CfType.is_calc k = true →
      cf_calc_elements m k = some v → materiality < qabs v)
    ∧ (∀ (m : FMap BsType) (k : BsType),
      bs_calc_elements (bs_calc_elements m) k = bs_calc_elements m k)
    ∧ (∀ (m : FMap PlType) (k : PlType),
      pl_calc_elements (pl_calc_elements m) k = pl_calc_elements m k)
    ∧ (∀ (m : FMap CfType) (k : CfType),
      cf_calc_elements (cf_calc_elements m) k = cf_calc_elements m k) := by
  refine ⟨fun m k v h hv => ?_, fun m k v h hv => ?_, fun m k v h hv => ?_,
    fun m k => ?_, fun m k => ?_, fun m k => ?_⟩
  · have h' : decide (k ∈ targetsOf BALANCE_SHEET_MAP) = true := h
    exact calc_elements_material BALANCE_SHEET_MAP bs_wellOrdered m k
      (of_decide_eq_true h') v hv
  · have h' : decide (k ∈ targetsOf PROFIT_LOSS_MAP) = true := h
    exact calc_elements_material PROFIT_LOSS_MAP pl_wellOrdered m k
      (of_decide_eq_true h') v hv
  · have h' : decide (k ∈ targetsOf CASH_FLOW_MAP) = true := h
    exact calc_elements_material CASH_FLOW_MAP cf_wellOrdered m k
      (of_decide_eq_true h') v hv
  · exact calc_elements_idem BALANCE_SHEET_MAP bs_wellOrdered m k
  · exact calc_elements_idem PROFIT_LOSS_MAP pl_wellOrdered m k
  · exact calc_elements_idem CASH_FLOW_MAP cf_wellOrdered m k

/-- C8 witness: CurrentAssets is calculated, it is stored as 7 after deriving
the map with Cash = 7, and the theorem yields that 7 is material. -/
theorem C8_materiality_idem_witness :
    BsType.is_calc CurrentAssets = true ∧ materiality < qabs 7 :=
  ⟨by decide, C8_materiality_idem.1 mC1W CurrentAssets 7 (by decide)
    (by with_unfolding_all decide)⟩

/-- C6: `add` and `upsert` on each statement map, and `put_balance_sheet` /
`put_profit_loss` / `put_cash_flow` on an Accounts store, fail fatally (the
guard `panic!`, modelled as `none`) for every item in the calculated key set of
its taxonomy; the panic fires before any write, so no mutated map results. -/
theorem C6_guard :
    (∀ (m : FMap BsType) (k : BsType) (v : ℚ), BsType.is_calc k = true →
      bs_add m k v = none ∧ bs_upsert m k v = none)
    ∧ (∀ (m : FMap PlType) (k : PlType) (v : ℚ), PlType.is_calc k = true →
      pl_add m k v = none ∧ pl_upsert m k v = none)
    ∧ (∀ (m : FMap CfType) (k : CfType) (v : ℚ), CfType.is_calc k = true →
      cf_add m k v = none ∧ cf_upsert m k v = none)
    ∧ (∀ (a : Accounts) (d : Int) (k : BsType) (v : ℚ), BsType.is_calc k = true →
      put_balance_sheet a d k v = none)
    ∧ (∀ (a : Accounts) (d : Int × Int) (k : PlType) (v : ℚ), PlType.is_calc k = true →
      put_profit_loss a d k v = none)
    ∧ (∀ (a : Accounts) (d : Int × Int) (k : CfType) (v : ℚ), CfType.is_calc k = true →
      put_cash_flow a d k v = none) := by
  refine ⟨fun m k v h => ⟨?_, ?_⟩, fun m k v h => ⟨?_, ?_⟩, fun m k v h => ⟨?_, ?_⟩,
    fun a d k v h => ?_, fun a d k v h => ?_, fun a d k v h => ?_⟩
  · simp [bs_add, h]
  · simp [bs_upsert, h]
  · simp [pl_add, h]
  · simp [pl_upsert, h]
  · simp [cf_add, h]
  · simp [cf_upsert, h]
  · simp [put_balance_sheet, h]
  · simp [put_profit_loss, h]
  · simp [put_cash_flow, h]

/-- C6 witness: the guard fires on concrete calculated items of each taxonomy
and through each entry point. -/
theorem C6_guard_witness :
    bs_add emptyBsMap Assets 1 = none
    ∧ bs_upsert emptyBsMap BalanceSheetCheck 1 = none
    ∧ pl_add emptyPlMap EBITDA 1 = none
    ∧ pl_upsert emptyPlMap EAT 1 = none
    ∧ cf_add emptyCfMap NetCashFlow 1 = none
    ∧ cf_upsert emptyCfMap FreeCashFlowFirm 1 = none
    ∧ put_balance_sheet acctC10 0 CurrentAssets 1 = none
    ∧ put_profit_loss acctC10 (0, 360) GrossProfit 1 = none
    ∧ put_cash_flow acctC10 (0, 360) CashFlowOperations 1 = none :=
  ⟨(C6_guard.1 emptyBsMap Assets 1 (by decide)).1,
   (C6_guard.1 emptyBsMap BalanceSheetCheck 1 (by decide)).2,
   (C6_guard.2.1 emptyPlMap EBITDA 1 (by decide)).1,
   (C6_guard.2.1 emptyPlMap EAT 1 (by decide)).2,
   (C6_guard.2.2.1 emptyCfMap NetCashFlow 1 (by decide)).1,
   (C6_guard.2.2.1 emptyCfMap FreeCashFlowFirm 1 (by decide)).2,
   C6_guard.2.2.2.1 acctC10 0 CurrentAssets 1 (by decide),
   C6_guard.2.2.2.2.1 acctC10 (0, 360) GrossProfit 1 (by decide),
   C6_guard.2.2.2.2.2 acctC10 (0, 360) CashFlowOperations 1 (by decide)⟩

/-- C5: refuted as stated. `common_size()` on a BsMap with no Assets key does
not return a result map: the `self[&Assets]` anchor lookup panics (a fatal
error, modelled as `none`), instead of silently propagating a division
artifact. -/
theorem C5_counterexample :
    emptyBsMap Assets = none ∧ (bs_common_size emptyBsMap).isNone = true :=
  ⟨rfl, rfl⟩

/-- C5 (amended): `common_size()` on a BsMap from which Assets is absent fails
fatally (the anchor `Index` lookup panics); a result map, with every entry
divided by the anchor value, is produced exactly when Assets is present
(division artifacts require a present, zero-valued anchor, not an absent
one). -/
theorem C5_common_size_amended (m : FMap BsType) (s : ℚ) :
    (m Assets = none → bs_common_size m = none)
    ∧ (m Assets = some s → bs_common_size m = some (common_size_fun m s)) := by
  constructor
  · intro h
    simp [bs_common_size, h]
  · intro h
    simp [bs_common_size, h]

/-- C5 witness: a nonempty anchor-free map panics, and a map with the anchor
present yields the scaled map. -/
theorem C5_common_size_amended_witness :
    bs_common_size mC5 = none
    ∧ bs_common_size (mupdate emptyBsMap Assets (some 7))
      = some (common_size_fun (mupdate emptyBsMap Assets (some 7)) 7) :=
  ⟨(C5_common_size_amended mC5 0).1 rfl,
   (C5_common_size_amended (mupdate emptyBsMap Assets (some 7)) 7).2 rfl⟩

theorem foldl_pres {α β : Type} (P : β → Prop) (f : β → α → β) :
    ∀ (l : List α) (b : β), P b → (∀ c a, a ∈ l → P c → P (f c a)) → P (l.foldl f b) := by
  intro l
  induction l with
  | nil => intro b hb _; exact hb
  | cons a t ih =>
    intro b hb hstep
    exact ih (f b a) (hstep b a (List.mem_cons_self _ _) hb)
      (fun c x hx hc => hstep c x (List.mem_cons_of_mem _ hx) hc)

theorem debit_mapping_not_calc :
    ∀ (fuel : Nat) (mz : DebitMap) (ct : BsType) (cp cn : BalanceSheetEntry),
      (∀ k, BsType.is_calc k = true → mz k = none) →
      ∀ k, BsType.is_calc k = true → debit_mapping fuel mz ct cp cn k = none := by
  intro fuel
  induction fuel with
  | zero => intro mz ct cp cn h k hk; exact h k hk
  | succ fuel ih =>
    intro mz ct cp cn h k hk
    unfold debit_mapping
    cases halk : alookup ct BALANCE_SHEET_MAP with
    | none => exact h k hk
    | some ab =>
      obtain ⟨a, b⟩ := ab
      have hstep : ∀ (p q : BalanceSheetEntry) (c : DebitMap) (x : BsType),
          (∀ k, BsType.is_calc k = true → c k = none) →
          ∀ k, BsType.is_calc k = true →
            (if x.is_calc then debit_mapping fuel c x p q else dupdate c x p) k = none := by
        intro p q c x hc k2 hk2
        by_cases hx : x.is_calc
        · rw [if_pos hx]
          exact ih c x p q hc k2 hk2
        · rw [if_neg hx]
          have hne : k2 ≠ x := by
            intro he
            subst he
            exact hx hk2
          simp [dupdate, hne]
          exact hc k2 hk2
      exact foldl_pres (fun c => ∀ k, BsType.is_calc k = true → c k = none) _ b
        (a.foldl _ mz)
        (foldl_pres (fun c => ∀ k, BsType.is_calc k = true → c k = none) _ a mz h
          (fun c x _ hc => hstep cp cn c x hc))
        (fun c x _ hc => hstep cn cp c x hc) k hk

theorem DEBIT_TYPE_not_calc (k : BsType) (pol : BalanceSheetEntry)
    (h : DEBIT_TYPE k = some pol) : BsType.is_calc k = false := by
  cases hcb : BsType.is_calc k with
  | false => rfl
  | true =>
    exfalso
    have hz : DEBIT_TYPE k = none := by
      unfold DEBIT_TYPE
      apply debit_mapping_not_calc
      · intro k1 hk1
        apply debit_mapping_not_calc
        · intro k2 hk2
          apply debit_mapping_not_calc
          · intro k3 _; rfl
          · exact hk2
        · exact hk1
      · exact hcb
    rw [hz] at h
    exact Option.noConfusion h

/-- C7: for every Balance Sheet item with an assigned debit/credit polarity
(these are exactly entered items the resolver reached), `debit(map, item, v)`
followed by `credit(map, item, v)` succeeds and returns the item's stored value
to its pre-transaction amount. -/
theorem C7_debit_credit (m : FMap BsType) (k : BsType) (v : ℚ)
    (pol : BalanceSheetEntry) (h : DEBIT_TYPE k = some pol) :
    debit_credit_value m k v = some (mvalue m k) := by
  have hnc := DEBIT_TYPE_not_calc k pol h
  unfold debit_credit_value bs_credit bs_debit
  rw [h]
  have hb : ∀ (x : FMap BsType) (w : ℚ), bs_add x k w = some (mupdate x k (some (mvalue x k + w))) := by
    intro x w
    simp [bs_add, hnc]
  cases pol <;>
    simp only [hb] <;>
    simp [mvalue, mupdate]

/-- C7 witness: RawMaterials carries the AssetEntry polarity, and a 5-unit
debit followed by a 5-unit credit restores its stored value. -/
theorem C7_debit_credit_witness :
    DEBIT_TYPE RawMaterials = some AssetEntry
    ∧ debit_credit_value mC1W RawMaterials 5 = some (mvalue mC1W RawMaterials) :=
  ⟨by decide, C7_debit_credit mC1W RawMaterials 5 AssetEntry (by decide)⟩

/-- C10: the point accessors and mutators of an Accounts store fail fatally
(the period `unwrap` panics, modelled as `none`) when the addressed period is
absent - for `get`/`put` of all three statements, even on entered items -
while a missing item inside an existing period's map merely reads as 0. -/
theorem C10_absent_period (a : Accounts) (d : Int) (p : Int × Int)
    (kb : BsType) (kp : PlType) (kc : CfType) (v : ℚ) :
    (alookup d a.balance_sheet = none →
      get_balance_sheet a d kb = none
      ∧ (BsType.is_calc kb = false → put_balance_sheet a d kb v = none))
    ∧ (alookup p a.profit_loss = none →
      get_profit_loss a p kp = none
      ∧ (PlType.is_calc kp = false → put_profit_loss a p kp v = none))
    ∧ (alookup p a.cash_flow = none →
      get_cash_flow a p kc = none
      ∧ (CfType.is_calc kc = false → put_cash_flow a p kc v = none))
    ∧ (∀ mb, alookup d a.balance_sheet = some mb →
      get_balance_sheet a d kb = some (mvalue mb kb))
    ∧ (∀ mp, alookup p a.profit_loss = some mp →
      get_profit_loss a p kp = some (mvalue mp kp))
    ∧ (∀ mc, alookup p a.cash_flow = some mc →
      get_cash_flow a p kc = some (mvalue mc kc)) := by
  refine ⟨fun h => ⟨?_, fun hc => ?_⟩, fun h => ⟨?_, fun hc => ?_⟩,
    fun h => ⟨?_, fun hc => ?_⟩, fun mb h => ?_, fun mp h => ?_, fun mc h => ?_⟩
  · simp [get_balance_sheet, h]
  · simp [put_balance_sheet, h, hc]
  · simp [get_profit_loss, h]
  · simp [put_profit_loss, h, hc]
  · simp [get_cash_flow, h]
  · simp [put_cash_flow, h, hc]
  · simp [get_balance_sheet, h]
  · simp [get_profit_loss, h]
  · simp [get_cash_flow, h]

/-- C10 witness: on a store holding only date 0 and period (0, 360), every
accessor panics at a missing period even for entered items, and a present
period with a missing item reads 0. -/
theorem C10_absent_period_witness :
    get_balance_sheet acctC10 1 Cash = none
    ∧ put_balance_sheet acctC10 1 Cash 5 = none
    ∧ get_profit_loss acctC10 (0, 1) Salaries = none
    ∧ put_profit_loss acctC10 (0, 1) Salaries 5 = none
    ∧ get_cash_flow acctC10 (0, 1) ChangeDebt = none
    ∧ put_cash_flow acctC10 (0, 1) ChangeDebt 5 = none
    ∧ get_balance_sheet acctC10 0 Cash = some (mvalue emptyBsMap Cash) :=
  ⟨((C10_absent_period acctC10 1 (0, 1) Cash Salaries ChangeDebt 5).1 rfl).1,
   ((C10_absent_period acctC10 1 (0, 1) Cash Salaries ChangeDebt 5).1 rfl).2
     (by decide),
   ((C10_absent_period acctC10 1 (0, 1) Cash Salaries ChangeDebt 5).2.1 rfl).1,
   ((C10_absent_period acctC10 1 (0, 1) Cash Salaries ChangeDebt 5).2.1 rfl).2
     (by decide),
   ((C10_absent_period acctC10 1 (0, 1) Cash Salaries ChangeDebt 5).2.2.1 rfl).1,
   ((C10_absent_period acctC10 1 (0, 1) Cash Salaries ChangeDebt 5).2.2.1 rfl).2
     (by decide),
   (C10_absent_period acctC10 0 (0, 1) Cash Salaries ChangeDebt 5).2.2.2.1 emptyBsMap
     rfl⟩

/-- C3: refuted as stated. A PL period spanning exactly 120 days
(`d0 + 120 days = d1`) lands in neither bucket of `split_periods()`: the
annual filter requires `d0 + 120 < d1` and the quarterly filter requires
`d0 + 120 > d1`, both strict, so the key is dropped instead of being placed in
the quarterly bucket. -/
theorem C3_counterexample :
    ((0 : Int), (120 : Int)) ∈ pl_period_keys acctC3
    ∧ (split_periods acctC3).1 = []
    ∧ (split_periods acctC3).2 = [] := by
  decide

/-- C3 (amended): `split_periods()` sends every PL period key with span
strictly greater than 120 days to the annual bucket only, every key with span
strictly less than 120 days to the quarterly bucket only, and drops every key
with span exactly 120 days from both buckets; keys with span other than
exactly 120 days land in exactly one bucket. -/
theorem C3_split_amended (a : Accounts) (p : Int × Int)
    (hp : p ∈ pl_period_keys a) :
    (p.1 + 120 < p.2 → p ∈ (split_periods a).1 ∧ p ∉ (split_periods a).2)
    ∧ (p.2 < p.1 + 120 → p ∈ (split_periods a).2 ∧ p ∉ (split_periods a).1)
    ∧ (p.1 + 120 = p.2 → p ∉ (split_periods a).1 ∧ p ∉ (split_periods a).2) := by
  unfold split_periods
  refine ⟨fun h => ⟨?_, ?_⟩, fun h => ⟨?_, ?_⟩, fun h => ⟨?_, ?_⟩⟩
  · exact List.mem_filter.mpr ⟨hp, by simp [h]⟩
  · intro hmem
    have h2 := (List.mem_filter.mp hmem).2
    simp only [gt_iff_lt, decide_eq_true_eq] at h2
    exact absurd h2 (lt_asymm h)
  · exact List.mem_filter.mpr ⟨hp, by simp [h]⟩
  · intro hmem
    have h2 := (List.mem_filter.mp hmem).2
    simp only [decide_eq_true_eq] at h2
    exact absurd h2 (lt_asymm h)
  · intro hmem
    have h2 := (List.mem_filter.mp hmem).2
    simp only [decide_eq_true_eq] at h2
    rw [h] at h2
    exact lt_irrefl _ h2
  · intro hmem
    have h2 := (List.mem_filter.mp hmem).2
    simp only [gt_iff_lt, decide_eq_true_eq] at h2
    rw [h] at h2
    exact lt_irrefl _ h2

/-- C3 witness: a 121-day period goes to the annual bucket only. -/
theorem C3_split_amended_witness :
    ((0 : Int), (121 : Int)) ∈ (split_periods acctC3W).1
    ∧ ((0 : Int), (121 : Int)) ∉ (split_periods acctC3W).2 :=
  (C3_split_amended acctC3W (0, 121) (by decide)).1 (by decide)

/-- C4: refuted as stated. With empty inputs and zero rates every loop value is
immaterial, yet `calc_cash_flow` still returns a map holding CashFlowTaxShield
with value 0, whose magnitude does not exceed the 1e-5 threshold: the final
shield insert is unconditional. -/
theorem C4_counterexample :
    calc_cash_flow emptyBsMap emptyBsMap emptyPlMap 0 0 0 CashFlowTaxShield = some 0
    ∧ ¬ materiality < qabs 0 := by
  constructor
  · with_unfolding_all decide
  · with_unfolding_all decide

/-- C4 (amended): every value `calc_cash_flow` inserts under a key other than
CashFlowTaxShield has magnitude exceeding the 1e-5 materiality threshold (no
other key is ever present with a sub-threshold value); the CashFlowTaxShield
entry alone is inserted unconditionally, whatever its magnitude. -/
theorem C4_materiality_amended (b0 b1 : FMap BsType) (pl : FMap PlType)
    (ct gt rt : ℚ) (k : CfType) (v : ℚ) (hk : k ≠ CashFlowTaxShield)
    (hv : calc_cash_flow b0 b1 pl ct gt rt k = some v) :
    materiality < qabs v := by
  unfold calc_cash_flow at hv
  rw [mupdate_ne _ _ _ _ hk] at hv
  refine foldl_pres
    (fun cf => ∀ k2 v2, cf k2 = some v2 → materiality < qabs v2)
    (cf_from_bs_step b0 b1) CASH_FLOW_BALANCE_SHEET _ ?_ ?_ k v hv
  · refine foldl_pres
      (fun cf => ∀ k2 v2, cf k2 = some v2 → materiality < qabs v2)
      (cf_from_pl_step pl) CASH_FLOW_PROFIT_LOSS emptyCfMap ?_ ?_
    · intro k2 v2 h2
      exact Option.noConfusion h2
    · intro c r _ hc k2 v2 h2
      unfold cf_from_pl_step at h2
      by_cases hcond : materiality < qabs (calc_elem pl r.2.1 r.2.2)
      · rw [if_pos hcond] at h2
        by_cases hk2 : k2 = r.1
        · subst hk2
          rw [mupdate_self] at h2
          cases h2
          exact hcond
        · rw [mupdate_ne _ _ _ _ hk2] at h2
          exact hc k2 v2 h2
      · rw [if_neg hcond] at h2
        exact hc k2 v2 h2
  · intro c r _ hc k2 v2 h2
    unfold cf_from_bs_step at h2
    by_cases hcond : materiality < qabs (calc_elem b1 r.2.1 r.2.2 - calc_elem b0 r.2.1 r.2.2)
    · rw [if_pos hcond] at h2
      by_cases hk2 : k2 = r.1
      · subst hk2
        rw [mupdate_self] at h2
        cases h2
        exact hcond
      · rw [mupdate_ne _ _ _ _ hk2] at h2
        exact hc k2 v2 h2
    · rw [if_neg hcond] at h2
      exact hc k2 v2 h2

/-- C4 witness: with the ending balance sheet holding CurrentReceivables = 7,
the ChangeCurrentAssets delta 7 is inserted and is material. -/
theorem C4_materiality_amended_witness :
    calc_cash_flow emptyBsMap bC4 emptyPlMap 0 0 0 ChangeCurrentAssets = some 7
    ∧ materiality < qabs 7 :=
  ⟨by with_unfolding_all decide,
   C4_materiality_amended emptyBsMap bC4 emptyPlMap 0 0 0 ChangeCurrentAssets 7
     (by decide) (by with_unfolding_all decide)⟩

theorem alookup_map_val [DecidableEq α] {β : Type} (g : β → β) :
    ∀ (l : List (α × β)) (d : α),
      alookup d (l.map (fun e => (e.1, g e.2))) = (alookup d l).map g := by
  intro l
  induction l with
  | nil => intro d; rfl
  | cons e t ih =>
    intro d
    obtain ⟨k, m⟩ := e
    by_cases hk : k = d
    · simp [alookup, hk]
    · simp [alookup, hk, ih]

theorem tax_entry_key (oth : List ((Int × Int) × FMap FinOthersTyp))
    (e b : (Int × Int) × FMap PlType) (h : tax_entry oth e = some b) :
    b.1 = e.1 := by
  unfold tax_entry at h
  split at h
  · exact Option.noConfusion h
  · split at h
    · exact Option.noConfusion h
    · cases h
      rfl

theorem tax_entry_eq (oth : List ((Int × Int) × FMap FinOthersTyp))
    (e : (Int × Int) × FMap PlType) (o : FMap FinOthersTyp)
    (ho : alookup e.1 oth = some o) :
    tax_entry oth e
      = some (e.1, mupdate e.2 TaxesCurrent (some (tax_formula e.2 o))) := by
  unfold tax_entry
  rw [ho]
  show (if PlType.is_calc TaxesCurrent = true then none
    else some (e.1, mupdate e.2 TaxesCurrent (some (tax_formula e.2 o))))
    = some (e.1, mupdate e.2 TaxesCurrent (some (tax_formula e.2 o)))
  rw [if_neg (by decide : ¬ PlType.is_calc TaxesCurrent = true)]

theorem omapM_tax_lookup (oth : List ((Int × Int) × FMap FinOthersTyp)) :
    ∀ (l l' : List ((Int × Int) × FMap PlType)),
      omapM (tax_entry oth) l = some l' →
      ∀ (d : Int × Int) (pl : FMap PlType), alookup d l = some pl →
      ∀ (o : FMap FinOthersTyp), alookup d oth = some o →
        alookup d l' = some (mupdate pl TaxesCurrent (some (tax_formula pl o))) := by
  intro l
  induction l with
  | nil =>
    intro l' h d pl hpl
    exact absurd hpl (by simp [alookup])
  | cons e t ih =>
    intro l' h d pl hpl o ho
    obtain ⟨k, m⟩ := e
    unfold omapM at h
    split at h
    · rename_i b bt he ht
      cases h
      by_cases hk : k = d
      · subst hk
        have hm : m = pl := by
          have := hpl
          simp [alookup] at this
          exact this
        subst hm
        rw [tax_entry_eq oth (k, m) o ho] at he
        cases he
        simp [alookup]
      · have hb1 : b.1 = k := tax_entry_key oth (k, m) b he
        have hpl2 : alookup d t = some pl := by
          have := hpl
          simp [alookup, hk] at this
          exact this
        have hstep : alookup d (b :: bt) = alookup d bt := by
          obtain ⟨b1, b2⟩ := b
          simp at hb1
          subst hb1
          simp [alookup, hk]
        rw [hstep]
        exact ih bt ht d pl hpl2 o ho
    · exact Option.noConfusion h

/-- C2: refuted as stated. `calc_tax()` derives all calculated items BEFORE
setting TaxesCurrent, not after: on a one-period store with
OperatingRevenue = 100 and corporate rate 1/2 it sets TaxesCurrent = 50, yet
leaves EAT = 100 = the stale pre-tax roll-up, which differs from
EBT - TaxesCurrent - TaxesDeferred = 100 - 50 - 0; the stored calculated items
are not consistent with the newly set TaxesCurrent values. -/
theorem C2_counterexample :
    probeC2 (calc_tax acctC2) EAT = some (some 100)
    ∧ probeC2 (calc_tax acctC2) EBT = some (some 100)
    ∧ probeC2 (calc_tax acctC2) TaxesCurrent = some (some 50)
    ∧ probeC2 (calc_tax acctC2) TaxesDeferred = some (some 0)
    ∧ (100 : ℚ) ≠ 100 - 50 - 0 := by
  refine ⟨?_, ?_, ?_, ?_, ?_⟩ <;> with_unfolding_all decide

/-- C2 (amended): `calc_tax()` first re-derives all calculated items of every
stored map, then recomputes TaxesCurrent for every Profit & Loss period as
max((EBT + depreciation tax adjustment) x corporate rate + EBITDA x
gross-profit rate, Revenue x revenue rate), reading those figures from the
freshly derived maps; the stored period map afterwards is the derived map with
only TaxesCurrent overwritten, so items downstream of TaxesCurrent (EAT,
NetIncome, ...) are left stale until a further calc_elements() call. -/
theorem C2_tax_amended (a a' : Accounts) (d : Int × Int) (pl0 : FMap PlType)
    (oth : FMap FinOthersTyp) (h : calc_tax a = some a')
    (hpl : alookup d a.profit_loss = some pl0)
    (hoth : alookup d a.others = some oth) :
    alookup d a'.profit_loss
      = some (mupdate (pl_calc_elements pl0) TaxesCurrent
          (some (qmax ((mvalue (pl_calc_elements pl0) EBT
                  + depreciation_tax_adjust (pl_calc_elements pl0))
                    * mvalue oth CorporateTaxRate
                + mvalue (pl_calc_elements pl0) EBITDA * mvalue oth GrossProfitTaxRate)
              (mvalue (pl_calc_elements pl0) Revenue * mvalue oth RevenueTaxRate)))) := by
  unfold calc_tax at h
  split at h
  · exact Option.noConfusion h
  · rename_i l hm
    cases h
    have h1 : alookup d (accounts_calc_elements a).profit_loss
        = some (pl_calc_elements pl0) := by
      show alookup d (a.profit_loss.map (fun e => (e.1, pl_calc_elements e.2)))
        = some (pl_calc_elements pl0)
      rw [alookup_map_val, hpl]
      rfl
    have h2 : alookup d (accounts_calc_elements a).others = some oth := hoth
    exact omapM_tax_lookup _ _ l hm d (pl_calc_elements pl0) h1 oth h2

/-- C2 witness: the amended theorem instantiated on the concrete one-period
store, with every hypothesis discharged by evaluation. -/
theorem C2_tax_amended_witness :
    alookup (0, 360) acctC2res.profit_loss
      = some (mupdate (pl_calc_elements plC2) TaxesCurrent
          (some (qmax ((mvalue (pl_calc_elements plC2) EBT
                  + depreciation_tax_adjust (pl_calc_elements plC2))
                    * mvalue othC2 CorporateTaxRate
                + mvalue (pl_calc_elements plC2) EBITDA * mvalue othC2 GrossProfitTaxRate)
              (mvalue (pl_calc_elements plC2) Revenue * mvalue othC2 RevenueTaxRate)))) :=
  C2_tax_amended acctC2 acctC2res (0, 360) plC2 othC2
    (by with_unfolding_all rfl) rfl rfl

end FinanceLib
